import Mathlib

/-!
Verification of the Property-sale backend (Express + Socket.IO relay +
Clerk webhook handlers).  The relay, the webhook route and the user
lifecycle handlers are embedded shallowly: JavaScript truthiness on the
string-valued fields is modelled explicitly, `undefined` is `Option.none`,
the Mongo user collection is a list of records, and each socket handler is
a pure function from server state to the list of emissions it produces.
The repository ships two variants of `index.js`: a defensive one (guarded
handlers, no webhook route) and a naive one (unguarded handlers plus the
webhook route); both are embedded.
-/

/-- A socket identifier (Socket.IO `socket.id`). -/
abbrev SocketId := Nat

/-- A JavaScript value used as a room key: `none` models `undefined`. -/
abbrev RoomVal := Option String

/-- The `send_message` payload `{ chatId, to, ...fields }`; absent fields
are `none`, the remaining fields are kept opaque. -/
structure Msg where
  chatId : Option String
  toField : Option String
  rest : String
deriving DecidableEq, Repr

/-- One live Socket.IO connection with the set of rooms it has joined. -/
structure Socket where
  sid : SocketId
  rooms : List RoomVal
deriving DecidableEq, Repr

/-- One event delivered to one connection. -/
structure Emission where
  dest : SocketId
  event : String
  payload : Msg
deriving DecidableEq, Repr

/-- JavaScript truthiness of an optional string field: `undefined` and the
empty string are falsy. -/
def strTruthy : Option String → Bool
  | some s => !(s == "")
  | none => false

/-- JavaScript template-literal coercion: backtick-interpolation of
`undefined` yields the string "undefined". -/
def jsTemplate : Option String → String
  | some s => s
  | none => "undefined"

/-- `socket.join(room)`: Socket.IO room membership is a set, so joining a
room the socket is already in changes nothing. -/
def socketJoin (s : Socket) (r : RoomVal) : Socket :=
  if r ∈ s.rooms then s else { s with rooms := r :: s.rooms }

/-- Apply `socket.join(r)` to the one socket with identifier `sid`. -/
def joinMapFn (sid : SocketId) (r : RoomVal) (s : Socket) : Socket :=
  if s.sid = sid then socketJoin s r else s

/-- The `join_room` handler of the defensive variant
(`if (chatId) socket.join(chatId)`). -/
def join_room_defensive (st : List Socket) (sid : SocketId) (chatId : RoomVal) :
    List Socket :=
  if strTruthy chatId then st.map (joinMapFn sid chatId) else st

/-- The `join_room` handler of the naive variant
(`socket.join(chatId)`, unguarded). -/
def join_room_naive (st : List Socket) (sid : SocketId) (chatId : RoomVal) :
    List Socket :=
  st.map (joinMapFn sid chatId)

/-- `socket.to(room).emit(ev, m)`: one emission per connection that joined
`room`, excluding the sender. -/
def roomEmit (st : List Socket) (sender : SocketId) (room : RoomVal)
    (ev : String) (m : Msg) : List Emission :=
  (st.filter fun s => s.sid != sender && s.rooms.contains room).map
    fun s => Emission.mk s.sid ev m

/-- `socket.broadcast.emit(ev, m)`: one emission per connection other than
the sender, regardless of rooms. -/
def broadcastEmit (st : List Socket) (sender : SocketId) (ev : String)
    (m : Msg) : List Emission :=
  (st.filter fun s => s.sid != sender).map fun s => Emission.mk s.sid ev m

/-- The two emit statements shared by both `send_message` handlers:
`socket.to(data.chatId).emit("receive_message", data)` followed by
`` socket.broadcast.emit(`${data.to}`, data) ``. -/
def relayEmissions (st : List Socket) (sender : SocketId) (m : Msg) :
    List Emission :=
  roomEmit st sender m.chatId "receive_message" m ++
    broadcastEmit st sender (jsTemplate m.toField) m

/-- The `send_message` handler of the defensive variant: the emits run only
under the guard `data?.chatId && data?.to`. -/
def send_message_defensive (st : List Socket) (sender : SocketId)
    (data : Option Msg) : List Emission :=
  match data with
  | some m =>
      if strTruthy m.chatId && strTruthy m.toField then relayEmissions st sender m
      else []
  | none => []

/-- A JavaScript runtime error raised inside a handler. -/
inductive JsError where
  | typeError
deriving DecidableEq, Repr

instance {e a : Type} [DecidableEq e] [DecidableEq a] : DecidableEq (Except e a) :=
  fun x y =>
    match x, y with
    | Except.error e1, Except.error e2 =>
        if h : e1 = e2 then isTrue (by rw [h]) else
          isFalse (by intro hc; cases hc; exact h rfl)
    | Except.error _, Except.ok _ => isFalse (by intro hc; cases hc)
    | Except.ok _, Except.error _ => isFalse (by intro hc; cases hc)
    | Except.ok a1, Except.ok a2 =>
        if h : a1 = a2 then isTrue (by rw [h]) else
          isFalse (by intro hc; cases hc; exact h rfl)

/-- The `send_message` handler of the naive variant: no guard, so a
null/undefined payload makes `data.chatId` throw a TypeError; otherwise the
two emits run with whatever values the fields hold. -/
def send_message_naive (st : List Socket) (sender : SocketId)
    (data : Option Msg) : Except JsError (List Emission) :=
  match data with
  | none => Except.error JsError.typeError
  | some m => Except.ok (relayEmissions st sender m)

/-! ## The Clerk webhook side: user store and lifecycle handlers -/

/-- One entry of the Clerk `email_addresses` array. -/
structure EmailEntry where
  id : String
  email_address : String
deriving DecidableEq, Repr

/-- The `event.data` object of a Clerk user lifecycle event. -/
structure UserData where
  id : String
  email_addresses : List EmailEntry
  primary_email_address_id : Option String
  first_name : Option String
  last_name : Option String
  username : Option String
  image_url : Option String
deriving DecidableEq, Repr

/-- A local user record as the handlers shape it. -/
structure User where
  clerkId : Option String
  email : String
  firstName : String
  lastName : String
  username : String
  avatar : String
deriving DecidableEq, Repr

/-- JavaScript `a || b` on strings (empty string is falsy). -/
def jsOrStr (a b : String) : String := if a = "" then b else a

/-- JavaScript `a || b` where `a` is an optional string field. -/
def jsOrOpt (o : Option String) (dflt : String) : String :=
  match o with
  | some s => jsOrStr s dflt
  | none => dflt

/-- `primaryEmail?.email_address || email_addresses?.[0]?.email_address || ""`. -/
def emailAddressOf (d : UserData) : String :=
  let primaryEmail :=
    d.email_addresses.find? fun e => some e.id == d.primary_email_address_id
  jsOrStr
    (match primaryEmail with
     | some e => e.email_address
     | none => "")
    (jsOrStr
      (match d.email_addresses.head? with
       | some e => e.email_address
       | none => "")
      "")

/-- JavaScript `s.slice(-8)`: the last eight characters (the whole string
when it is shorter). -/
def sliceNeg8 (s : String) : String := s.drop (s.length - 8)

/-- The `new User({...})` document built by `handleUserCreated`. -/
def mkClerkUser (d : UserData) : User :=
  { clerkId := some d.id
    email := emailAddressOf d
    firstName := jsOrOpt d.first_name ""
    lastName := jsOrOpt d.last_name ""
    username := jsOrOpt d.username ("user_" ++ sliceNeg8 d.id)
    avatar := "" }

/-- The Mongo query `{ $or: [{ clerkId }, { email }] }` used by
`handleUserCreated`. -/
def userCreatedQuery (cid em : String) (u : User) : Bool :=
  u.clerkId == some cid || u.email == em

/-- Update the first record satisfying `p` (Mongo writes the found document
back by its identity; `find?` and this function agree on the first match). -/
def updateFirst (p : User → Bool) (f : User → User) : List User → List User
  | [] => []
  | u :: rest => if p u then f u :: rest else u :: updateFirst p f rest

/-- `handleUserCreated`: look the user up by clerkId-or-email; back-fill a
missing clerkId on the existing record, or insert a fresh record. -/
def handleUserCreated (db : List User) (d : UserData) : List User :=
  let cid := d.id
  let em := emailAddressOf d
  match db.find? (userCreatedQuery cid em) with
  | some existing =>
      if existing.clerkId.isNone then
        updateFirst (userCreatedQuery cid em)
          (fun u => { u with clerkId := some cid }) db
      else db
  | none => db ++ [mkClerkUser d]

/-- `handleUserUpdated`: `findOneAndUpdate({ clerkId }, { $set: {...} })` —
update the first record with that clerkId, no-op when absent. -/
def handleUserUpdated (db : List User) (d : UserData) : List User :=
  updateFirst (fun u => u.clerkId == some d.id)
    (fun u =>
      { u with
        email := emailAddressOf d
        firstName := jsOrOpt d.first_name ""
        lastName := jsOrOpt d.last_name ""
        username := jsOrOpt d.username ""
        avatar := jsOrOpt d.image_url "" })
    db

/-- `handleUserDeleted`: `findOneAndDelete({ clerkId })` — remove the first
record with that clerkId, no-op when absent. -/
def handleUserDeleted (db : List User) (d : UserData) : List User :=
  db.eraseP fun u => u.clerkId == some d.id

/-- The body of the response the webhook route sends. -/
inductive WebhookResponseBody where
  | secretNotConfigured
  | processed
  | verificationFailed (errMessage : String)
deriving DecidableEq, Repr

/-- A verified Clerk webhook event. -/
structure WebhookEvent where
  type : String
  data : UserData
deriving DecidableEq, Repr

/-- The `switch (event.type)` dispatch of the webhook route. -/
def processClerkEvent (db : List User) (ev : WebhookEvent) : List User :=
  match ev.type with
  | "user.created" => handleUserCreated db ev.data
  | "user.updated" => handleUserUpdated db ev.data
  | "user.deleted" => handleUserDeleted db ev.data
  | _ => db

/-- The dispatch when the persistence layer raises no error. -/
def processClerkEventE (db : List User) (ev : WebhookEvent) :
    Except String (List User) :=
  Except.ok (processClerkEvent db ev)

/-- The `/api/webhooks/clerk` route of the naive variant.  `verify` is the
outcome of `wh.verify` (an external library), `run` the outcome of the
dispatched handler over the persistence layer: the route's `catch` turns
either failure into the same 400 response, and a missing secret is rejected
before the `try`. -/
def clerkWebhookRoute (secretSet : Bool) (verify : Except String WebhookEvent)
    (run : List User → WebhookEvent → Except String (List User))
    (db : List User) : List User × Nat × WebhookResponseBody :=
  if secretSet then
    match verify with
    | Except.error msg => (db, 400, WebhookResponseBody.verificationFailed msg)
    | Except.ok ev =>
        match run db ev with
        | Except.error msg => (db, 400, WebhookResponseBody.verificationFailed msg)
        | Except.ok db' => (db', 200, WebhookResponseBody.processed)
  else (db, 400, WebhookResponseBody.secretNotConfigured)

/-! ## The dead webhook handler of `src/api/webhooks/register/clerk.js` -/

/-- An observable action of a webhook handler. -/
inductive WebhookAction where
  | verifySignature (payload : String)
  | respond (status : Nat) (body : String)
  | dbWrite (description : String)
deriving DecidableEq, Repr

/-- The inner `(req, res) => {...}` closure written inside `clerkWebhook`:
had it been invoked it would verify the signature and respond 200 or 400. -/
def clerkInnerHandler (verified : Bool) (payload : String) :
    List WebhookAction :=
  if verified then
    [WebhookAction.verifySignature payload,
     WebhookAction.respond 200 "Webhook processed"]
  else
    [WebhookAction.verifySignature payload,
     WebhookAction.respond 400 "Invalid signature"]

/-- The exported `clerkWebhook` handler: its body is the comma expression
`bodyParser.raw({...}), (req, res) => {...}` — the middleware value and the
inner closure are constructed and discarded, nothing is invoked, so the
function returns having performed no action. -/
def clerkWebhook (verified : Bool) (payload : String) : List WebhookAction :=
  let _innerHandler : Bool → String → List WebhookAction := clerkInnerHandler
  ([] : List WebhookAction)

/-! ## Health endpoints -/

/-- The JSON body of the defensive variant's `GET /health`. -/
structure HealthBodyD where
  status : String
  timestamp : String
  env : String
deriving DecidableEq, Repr

/-- The defensive variant's `/health` handler: `res.json({...})` (Express
default status 200); the `isConnected` flag of the process is never read. -/
def healthHandlerD (isConnected : Bool) (now : String)
    (nodeEnv : Option String) : Nat × HealthBodyD :=
  (200, { status := "healthy", timestamp := now
          env := jsOrOpt nodeEnv "development" })

/-- The JSON body of the naive variant's `/health`. -/
structure HealthBodyN where
  success : Bool
  message : String
deriving DecidableEq, Repr

/-- The naive variant's `/health` handler: `res.status(200).json({...})`;
no database state is consulted. -/
def healthHandlerN (isConnected : Bool) : Nat × HealthBodyN :=
  (200, { success := true, message := "Server is running healthy" })

/-! ## Combined server state, for the frame claim -/

/-- A persisted message record (schema external to the embedded files). -/
structure MessageRec where
  raw : String
deriving DecidableEq, Repr

/-- A persisted conversation record. -/
structure ConversationRec where
  raw : String
deriving DecidableEq, Repr

/-- The persistence layer: users, messages, conversations. -/
structure Database where
  users : List User
  messages : List MessageRec
  conversations : List ConversationRec
deriving DecidableEq, Repr

/-- The whole server: persisted state plus live sockets. -/
structure ServerState where
  db : Database
  sockets : List Socket
deriving DecidableEq, Repr

/-- One externally triggered event of the server. -/
inductive ServerEvent where
  | webhook (secretSet : Bool) (verify : Except String WebhookEvent)
  | joinRoom (sid : SocketId) (chatId : RoomVal)
  | sendMessage (sid : SocketId) (data : Option Msg)

/-- One step of the defensive variant.  That variant registers no webhook
route, so a webhook request reaches no handler and changes nothing. -/
def serverStepD (s : ServerState) (ev : ServerEvent) :
    ServerState × List Emission :=
  match ev with
  | ServerEvent.webhook _ _ => (s, [])
  | ServerEvent.joinRoom sid chatId =>
      ({ s with sockets := join_room_defensive s.sockets sid chatId }, [])
  | ServerEvent.sendMessage sid data =>
      (s, send_message_defensive s.sockets sid data)

/-- One step of the naive variant: the webhook route updates the user
collection, the relay handlers touch only sockets and emissions. -/
def serverStepN (s : ServerState) (ev : ServerEvent) :
    Except JsError (ServerState × List Emission) :=
  match ev with
  | ServerEvent.webhook secretSet verify =>
      Except.ok
        ({ s with db :=
            { s.db with users :=
                (clerkWebhookRoute secretSet verify processClerkEventE
                  s.db.users).1 } }, [])
  | ServerEvent.joinRoom sid chatId =>
      Except.ok ({ s with sockets := join_room_naive s.sockets sid chatId }, [])
  | ServerEvent.sendMessage sid data =>
      match send_message_naive s.sockets sid data with
      | Except.error e => Except.error e
      | Except.ok l => Except.ok (s, l)

/-! ## Helper lemmas -/

theorem socketJoin_sid (s : Socket) (r : RoomVal) : (socketJoin s r).sid = s.sid := by
  unfold socketJoin
  split <;> rfl

theorem socketJoin_idem (s : Socket) (r : RoomVal) :
    socketJoin (socketJoin s r) r = socketJoin s r := by
  by_cases h : r ∈ s.rooms
  · simp [socketJoin, h]
  · simp [socketJoin, h]

theorem joinMapFn_idem (sid : SocketId) (r : RoomVal) (s : Socket) :
    joinMapFn sid r (joinMapFn sid r s) = joinMapFn sid r s := by
  unfold joinMapFn
  by_cases h : s.sid = sid
  · simp [h, socketJoin_sid, socketJoin_idem]
  · simp [h]

theorem joinMap_idem (st : List Socket) (sid : SocketId) (r : RoomVal) :
    (st.map (joinMapFn sid r)).map (joinMapFn sid r) = st.map (joinMapFn sid r) := by
  induction st with
  | nil => rfl
  | cons a l ih =>
    simp only [List.map_cons, joinMapFn_idem]
    rw [ih]

theorem emit_filter (st : List Socket) (g : Socket → Bool) (ev : String) (m : Msg)
    (p : Emission → Bool) :
    ((st.filter g).map fun s => Emission.mk s.sid ev m).filter p
      = (st.filter fun s => p (Emission.mk s.sid ev m) && g s).map
          fun s => Emission.mk s.sid ev m := by
  rw [List.filter_map, List.filter_filter]
  rfl

theorem filter_eq_single {st : List Socket} {q : Socket → Bool} {sc : Socket}
    (hnd : (st.map Socket.sid).Nodup) (hmem : sc ∈ st) (hq : q sc = true)
    (honly : ∀ s, q s = true → s.sid = sc.sid) : st.filter q = [sc] := by
  induction st with
  | nil => cases hmem
  | cons a l ih =>
    simp only [List.map_cons, List.nodup_cons] at hnd
    obtain ⟨hna, hnl⟩ := hnd
    rcases List.mem_cons.mp hmem with h | h
    · subst h
      rw [List.filter_cons_of_pos hq]
      have : l.filter q = [] := by
        apply List.filter_eq_nil_iff.mpr
        intro x hx hqx
        exact hna (honly x hqx ▸ List.mem_map_of_mem Socket.sid hx)
      rw [this]
    · have hqa : q a = false := by
        cases hqa : q a
        · rfl
        · exact absurd (honly a hqa ▸ List.mem_map_of_mem Socket.sid h) hna
      rw [List.filter_cons_of_neg (by simp [hqa])]
      exact ih hnl h

/-! ## Claim theorems -/

/-- C7: `join_room` is idempotent in both variants: emitting
`join_room(chatId)` twice from the same connection leaves the
room-membership state identical to emitting it once, because Socket.IO
room membership is a set. -/
theorem join_room_idempotent (st : List Socket) (sid : SocketId) (chatId : RoomVal) :
    join_room_defensive (join_room_defensive st sid chatId) sid chatId
        = join_room_defensive st sid chatId ∧
      join_room_naive (join_room_naive st sid chatId) sid chatId
        = join_room_naive st sid chatId := by
  constructor
  · cases hb : strTruthy chatId with
    | true => simp [join_room_defensive, hb, joinMap_idem, joinMapFn_idem]
    | false => simp [join_room_defensive, hb]
  · simp [join_room_naive, joinMap_idem, joinMapFn_idem]

/-- C9: both variants' health-check handlers respond with HTTP status 200
and a success payload, and the response is independent of the database
connectivity flag (the handlers never consult it). -/
theorem health_always_200 (c1 c2 : Bool) (now : String) (nodeEnv : Option String) :
    healthHandlerD c1 now nodeEnv = healthHandlerD c2 now nodeEnv ∧
      (healthHandlerD c1 now nodeEnv).1 = 200 ∧
      (healthHandlerD c1 now nodeEnv).2.status = "healthy" ∧
      healthHandlerN c1 = healthHandlerN c2 ∧
      (healthHandlerN c1).1 = 200 ∧
      (healthHandlerN c1).2.success = true :=
  ⟨rfl, rfl, rfl, rfl, rfl, rfl⟩

/-- C5: the exported `clerkWebhook` handler of
`src/api/webhooks/register/clerk.js` performs no observable action on any
request — no signature verification, no response, no state mutation — its
body only constructs the inner request handler (one operand of a comma
expression) and never invokes it; by contrast the inner handler, had it
been invoked, would have acted. -/
theorem clerkWebhook_no_observable_effect (verified : Bool) (payload : String) :
    clerkWebhook verified payload = [] ∧
      clerkInnerHandler verified payload ≠ [] := by
  refine ⟨rfl, ?_⟩
  cases verified <;> simp [clerkInnerHandler]

/-- C10: handling a `send_message` relay event leaves the persistence layer
(users, messages, conversations) unchanged in both variants: the handlers
produce emissions only and perform no database write. -/
theorem send_message_no_persistence_write (s : ServerState) (sid : SocketId)
    (data : Option Msg) :
    ((serverStepD s (ServerEvent.sendMessage sid data)).1).db = s.db ∧
      ∀ r, serverStepN s (ServerEvent.sendMessage sid data) = Except.ok r →
        r.1.db = s.db := by
  refine ⟨rfl, ?_⟩
  intro r hr
  cases h : send_message_naive s.sockets sid data with
  | error e => simp [serverStepN, h] at hr
  | ok l =>
      simp only [serverStepN, h] at hr
      cases hr
      rfl

theorem send_message_no_persistence_write_witness :
    ((serverStepD (ServerState.mk (Database.mk [] [] []) [])
          (ServerEvent.sendMessage 0 (some (Msg.mk (some "r1") (some "userB") "hi")))).1).db
        = Database.mk [] [] [] ∧
      ((ServerState.mk (Database.mk [] [] []) [], ([] : List Emission))).1.db
        = Database.mk [] [] [] :=
  ⟨(send_message_no_persistence_write (ServerState.mk (Database.mk [] [] []) []) 0
      (some (Msg.mk (some "r1") (some "userB") "hi"))).1,
    (send_message_no_persistence_write (ServerState.mk (Database.mk [] [] []) []) 0
      (some (Msg.mk (some "r1") (some "userB") "hi"))).2
      (ServerState.mk (Database.mk [] [] []) [], ([] : List Emission)) rfl⟩

/-- C4: processing a `user.created` event is idempotent keyed on
clerkId-or-email: when no existing record matches the clerkId-or-email
lookup, exactly one new record is inserted, and processing the identical
event again finds that record (which already carries the clerkId) and
changes nothing. -/
theorem handleUserCreated_idempotent (db : List User) (d : UserData)
    (hfresh : db.find? (userCreatedQuery d.id (emailAddressOf d)) = none) :
    (handleUserCreated db d).length = db.length + 1 ∧
      handleUserCreated (handleUserCreated db d) d = handleUserCreated db d := by
  have h1 : handleUserCreated db d = db ++ [mkClerkUser d] := by
    simp [handleUserCreated, hfresh]
  have hq : userCreatedQuery d.id (emailAddressOf d) (mkClerkUser d) = true := by
    simp [userCreatedQuery, mkClerkUser]
  have h2 : (db ++ [mkClerkUser d]).find?
      (userCreatedQuery d.id (emailAddressOf d)) = some (mkClerkUser d) := by
    rw [List.find?_append, hfresh]
    simp [List.find?_cons_of_pos _ hq]
  constructor
  · rw [h1]
    simp
  · rw [h1]
    simp only [handleUserCreated, h2]
    simp [mkClerkUser]

theorem handleUserCreated_idempotent_witness :
    (([] : List User).find?
        (userCreatedQuery (UserData.mk "user_123" [EmailEntry.mk "em1" "a@b.c"]
            (some "em1") (some "Ada") (some "L") none none).id
          (emailAddressOf (UserData.mk "user_123" [EmailEntry.mk "em1" "a@b.c"]
            (some "em1") (some "Ada") (some "L") none none))) = none) ∧
      ((handleUserCreated [] (UserData.mk "user_123" [EmailEntry.mk "em1" "a@b.c"]
            (some "em1") (some "Ada") (some "L") none none)).length
          = ([] : List User).length + 1 ∧
        handleUserCreated
            (handleUserCreated [] (UserData.mk "user_123" [EmailEntry.mk "em1" "a@b.c"]
              (some "em1") (some "Ada") (some "L") none none))
            (UserData.mk "user_123" [EmailEntry.mk "em1" "a@b.c"]
              (some "em1") (some "Ada") (some "L") none none)
          = handleUserCreated [] (UserData.mk "user_123" [EmailEntry.mk "em1" "a@b.c"]
              (some "em1") (some "Ada") (some "L") none none)) :=
  ⟨rfl,
    handleUserCreated_idempotent []
      (UserData.mk "user_123" [EmailEntry.mk "em1" "a@b.c"]
        (some "em1") (some "Ada") (some "L") none none) rfl⟩

/-- C6: a `user.deleted` webhook event whose clerkId matches an existing
record makes the route remove exactly that (first matching) record and
respond 200; a clerkId matching no record is a no-op and the route still
responds 200, not an error status. -/
theorem user_deleted_webhook (db : List User) (d : UserData) :
    ((∀ u ∈ db, u.clerkId ≠ some d.id) →
        clerkWebhookRoute true (Except.ok (WebhookEvent.mk "user.deleted" d))
            processClerkEventE db
          = (db, 200, WebhookResponseBody.processed)) ∧
      ∀ l1 u l2, db = l1 ++ u :: l2 → u.clerkId = some d.id →
        (∀ v ∈ l1, v.clerkId ≠ some d.id) →
        clerkWebhookRoute true (Except.ok (WebhookEvent.mk "user.deleted" d))
            processClerkEventE db
          = (l1 ++ l2, 200, WebhookResponseBody.processed) := by
  have hroute : ∀ db' : List User,
      clerkWebhookRoute true (Except.ok (WebhookEvent.mk "user.deleted" d))
          processClerkEventE db'
        = (handleUserDeleted db' d, 200, WebhookResponseBody.processed) := by
    intro db'
    rfl
  constructor
  · intro hnone
    rw [hroute]
    have : handleUserDeleted db d = db := by
      apply List.eraseP_of_forall_not
      intro u hu
      simp [hnone u hu]
    rw [this]
  · intro l1 u l2 hdb hu hl1
    subst hdb
    rw [hroute]
    have : handleUserDeleted (l1 ++ u :: l2) d = l1 ++ l2 := by
      unfold handleUserDeleted
      rw [List.eraseP_append_right _ (by intro b hb; simp [hl1 b hb]),
        List.eraseP_cons_of_pos (by simp [hu])]
    rw [this]

theorem user_deleted_webhook_witness :
    ((User.mk (some "user_9") "a@b.c" "" "" "u9" "")
        ∈ [User.mk (some "user_9") "a@b.c" "" "" "u9" ""] →
      (User.mk (some "user_9") "a@b.c" "" "" "u9" "").clerkId
        = some (UserData.mk "user_9" [] none none none none none).id) ∧
      clerkWebhookRoute true
          (Except.ok (WebhookEvent.mk "user.deleted"
            (UserData.mk "user_9" [] none none none none none)))
          processClerkEventE [User.mk (some "user_9") "a@b.c" "" "" "u9" ""]
        = ([], 200, WebhookResponseBody.processed) :=
  ⟨fun _ => rfl,
    (user_deleted_webhook [User.mk (some "user_9") "a@b.c" "" "" "u9" ""]
        (UserData.mk "user_9" [] none none none none none)).2
      [] (User.mk (some "user_9") "a@b.c" "" "" "u9" "") [] rfl rfl
      (by intro v hv; cases hv)⟩

/-- C8: a webhook request whose signature verification fails is answered
with HTTP 400 and the user collection is untouched (no handler runs,
whatever the persistence layer would have done); a handler/persistence
failure after successful verification is answered by the same generic
400 failure response. -/
theorem webhook_failure_responses (db : List User) (msg emsg : String)
    (run : List User → WebhookEvent → Except String (List User))
    (ev : WebhookEvent) (hrun : run db ev = Except.error emsg) :
    clerkWebhookRoute true (Except.error msg) run db
        = (db, 400, WebhookResponseBody.verificationFailed msg) ∧
      clerkWebhookRoute true (Except.ok ev) run db
        = (db, 400, WebhookResponseBody.verificationFailed emsg) := by
  constructor
  · rfl
  · simp [clerkWebhookRoute, hrun]

theorem webhook_failure_responses_witness :
    ((fun (_ : List User) (_ : WebhookEvent) =>
          (Except.error "db down" : Except String (List User)))
        [User.mk none "x@y.z" "" "" "ux" ""]
        (WebhookEvent.mk "user.created" (UserData.mk "u1" [] none none none none none))
      = Except.error "db down") ∧
      (clerkWebhookRoute true (Except.error "bad signature")
          (fun _ _ => Except.error "db down") [User.mk none "x@y.z" "" "" "ux" ""]
        = ([User.mk none "x@y.z" "" "" "ux" ""], 400,
            WebhookResponseBody.verificationFailed "bad signature") ∧
      clerkWebhookRoute true
          (Except.ok (WebhookEvent.mk "user.created"
            (UserData.mk "u1" [] none none none none none)))
          (fun _ _ => Except.error "db down") [User.mk none "x@y.z" "" "" "ux" ""]
        = ([User.mk none "x@y.z" "" "" "ux" ""], 400,
            WebhookResponseBody.verificationFailed "db down")) :=
  ⟨rfl,
    webhook_failure_responses [User.mk none "x@y.z" "" "" "ux" ""]
      "bad signature" "db down" (fun _ _ => Except.error "db down")
      (WebhookEvent.mk "user.created" (UserData.mk "u1" [] none none none none none))
      rfl⟩

theorem emit_filter_nil (st : List Socket) (g : Socket → Bool) (ev : String)
    (m : Msg) (p : Emission → Bool)
    (h : ∀ s ∈ st, (p (Emission.mk s.sid ev m) && g s) = false) :
    ((st.filter g).map fun s => Emission.mk s.sid ev m).filter p = [] := by
  rw [emit_filter]
  have hnil : st.filter (fun s => p (Emission.mk s.sid ev m) && g s) = [] :=
    List.filter_eq_nil_iff.mpr (by intro a ha; simp [h a ha])
  rw [hnil, List.map_nil]

theorem emit_filter_single (st : List Socket) (g : Socket → Bool) (ev : String)
    (m : Msg) (p : Emission → Bool) (sc : Socket) (c : SocketId)
    (hnd : (st.map Socket.sid).Nodup) (hmem : sc ∈ st) (hsid : sc.sid = c)
    (hq : (p (Emission.mk sc.sid ev m) && g sc) = true)
    (honly : ∀ s, (p (Emission.mk s.sid ev m) && g s) = true → s.sid = sc.sid) :
    ((st.filter g).map fun s => Emission.mk s.sid ev m).filter p
      = [Emission.mk c ev m] := by
  rw [emit_filter, filter_eq_single hnd hmem hq honly, List.map_cons, List.map_nil,
    hsid]

theorem relayEmissions_not_to_sender (st : List Socket) (sender : SocketId)
    (m : Msg) : ∀ e ∈ relayEmissions st sender m, e.dest ≠ sender := by
  intro e he
  unfold relayEmissions roomEmit broadcastEmit at he
  rcases List.mem_append.mp he with h | h
  · obtain ⟨s, hs, rfl⟩ := List.mem_map.mp h
    have hf := (List.mem_filter.mp hs).2
    simp only [Bool.and_eq_true, bne_iff_ne] at hf
    exact hf.1
  · obtain ⟨s, hs, rfl⟩ := List.mem_map.mp h
    have hf := (List.mem_filter.mp hs).2
    simp only [bne_iff_ne] at hf
    exact hf

/-- C1 counterexample: with payload
`{chatId: "r1", to: "receive_message"}` the joined connection 0 receives
the `receive_message` event twice — once from the room-scoped relay and
once from the global broadcast whose event name is the `to` value — so
"exactly one `receive_message` event" fails. -/
theorem receive_message_not_exactly_once :
    ¬ (((send_message_defensive [Socket.mk 0 [some "r1"], Socket.mk 1 []] 1
          (some (Msg.mk (some "r1") (some "receive_message") "x"))).filter
        (fun e => e.dest == 0 && e.event == "receive_message")).length = 1) := by
  decide

/-- C1 (amended): for a connection that joined room `chatId`, a
`send_message` from a different connection with that `chatId`, a truthy
`to` field, and `to` not itself the string "receive_message", delivers
exactly one `receive_message` event carrying the unchanged payload to the
joined connection; the sender receives no `receive_message` event at all;
the naive variant emits the same list. -/
theorem receive_message_exactly_once (st : List Socket) (sender c : SocketId)
    (sc : Socket) (m : Msg)
    (hnd : (st.map Socket.sid).Nodup) (hmem : sc ∈ st) (hsid : sc.sid = c)
    (hne : c ≠ sender) (hjoin : sc.rooms.contains m.chatId = true)
    (hchat : strTruthy m.chatId = true) (hto : strTruthy m.toField = true)
    (hnotrm : m.toField ≠ some "receive_message") :
    (send_message_defensive st sender (some m)).filter
        (fun e => e.dest == c && e.event == "receive_message")
      = [Emission.mk c "receive_message" m] ∧
    (send_message_defensive st sender (some m)).filter
        (fun e => e.dest == sender && e.event == "receive_message") = [] ∧
    send_message_naive st sender (some m)
      = Except.ok (send_message_defensive st sender (some m)) := by
  obtain ⟨t, ht, htne⟩ : ∃ t, m.toField = some t ∧ t ≠ "receive_message" := by
    cases hmt : m.toField with
    | none => rw [hmt] at hto; simp [strTruthy] at hto
    | some t => exact ⟨t, rfl, fun h => hnotrm (by rw [hmt, h])⟩
  have hdef : send_message_defensive st sender (some m)
      = relayEmissions st sender m := by
    simp [send_message_defensive, hchat, hto]
  have hroom : (roomEmit st sender m.chatId "receive_message" m).filter
      (fun e => e.dest == c && e.event == "receive_message")
      = [Emission.mk c "receive_message" m] := by
    have hjoin' : m.chatId ∈ sc.rooms := by simpa using hjoin
    unfold roomEmit
    exact emit_filter_single st _ "receive_message" m _ sc c hnd hmem hsid
      (by simp [hsid, hjoin', hne])
      (by
        intro s h
        simp only [Bool.and_eq_true, beq_iff_eq, bne_iff_ne] at h
        rw [hsid]
        exact h.1.1)
  have hbc : (broadcastEmit st sender (jsTemplate m.toField) m).filter
      (fun e => e.dest == c && e.event == "receive_message") = [] := by
    unfold broadcastEmit
    apply emit_filter_nil
    intro s hs
    rw [ht]
    have h2 : (jsTemplate (some t) == "receive_message") = false := by
      simp [jsTemplate, htne]
    simp [h2]
  have hroomS : (roomEmit st sender m.chatId "receive_message" m).filter
      (fun e => e.dest == sender && e.event == "receive_message") = [] := by
    unfold roomEmit
    apply emit_filter_nil
    intro s hs
    by_cases hss : s.sid = sender
    · simp [hss]
    · simp [hss]
  have hbcS : (broadcastEmit st sender (jsTemplate m.toField) m).filter
      (fun e => e.dest == sender && e.event == "receive_message") = [] := by
    unfold broadcastEmit
    apply emit_filter_nil
    intro s hs
    by_cases hss : s.sid = sender
    · simp [hss]
    · simp [hss]
  refine ⟨?_, ?_, ?_⟩
  · rw [hdef]
    unfold relayEmissions
    rw [List.filter_append, hroom, hbc]
    rfl
  · rw [hdef]
    unfold relayEmissions
    rw [List.filter_append, hroomS, hbcS]
    rfl
  · rw [hdef]
    rfl

theorem receive_message_exactly_once_witness :
    (([Socket.mk 0 [some "r1"], Socket.mk 1 []].map Socket.sid).Nodup ∧
        Socket.mk 0 [some "r1"] ∈ [Socket.mk 0 [some "r1"], Socket.mk 1 []] ∧
        (Socket.mk 0 [some "r1"]).sid = 0 ∧ (0 : SocketId) ≠ 1 ∧
        (Socket.mk 0 [some "r1"]).rooms.contains
            (Msg.mk (some "r1") (some "userA") "x").chatId = true ∧
        strTruthy (Msg.mk (some "r1") (some "userA") "x").chatId = true ∧
        strTruthy (Msg.mk (some "r1") (some "userA") "x").toField = true ∧
        (Msg.mk (some "r1") (some "userA") "x").toField ≠ some "receive_message") ∧
      ((send_message_defensive [Socket.mk 0 [some "r1"], Socket.mk 1 []] 1
            (some (Msg.mk (some "r1") (some "userA") "x"))).filter
          (fun e => e.dest == 0 && e.event == "receive_message")
        = [Emission.mk 0 "receive_message" (Msg.mk (some "r1") (some "userA") "x")] ∧
      (send_message_defensive [Socket.mk 0 [some "r1"], Socket.mk 1 []] 1
            (some (Msg.mk (some "r1") (some "userA") "x"))).filter
          (fun e => e.dest == 1 && e.event == "receive_message") = [] ∧
      send_message_naive [Socket.mk 0 [some "r1"], Socket.mk 1 []] 1
          (some (Msg.mk (some "r1") (some "userA") "x"))
        = Except.ok (send_message_defensive [Socket.mk 0 [some "r1"], Socket.mk 1 []] 1
            (some (Msg.mk (some "r1") (some "userA") "x")))) :=
  ⟨⟨by decide, by decide, rfl, by decide, rfl, rfl, rfl, by decide⟩,
    receive_message_exactly_once [Socket.mk 0 [some "r1"], Socket.mk 1 []] 1 0
      (Socket.mk 0 [some "r1"]) (Msg.mk (some "r1") (some "userA") "x")
      (by decide) (by decide) rfl (by decide) rfl rfl rfl (by decide)⟩

/-- C2: for every `send_message` whose payload has truthy `chatId` and
`to = t`, every connected socket other than the sender receives an event
named `t` with the unchanged payload via the global broadcast path,
regardless of room membership; a recipient that also joined the `chatId`
room receives the payload twice, once per delivery path. -/
theorem dual_delivery (st : List Socket) (sender c : SocketId) (sc : Socket)
    (m : Msg) (t : String)
    (hnd : (st.map Socket.sid).Nodup) (hmem : sc ∈ st) (hsid : sc.sid = c)
    (hne : c ≠ sender) (hchat : strTruthy m.chatId = true)
    (ht : m.toField = some t) (htne : t ≠ "") :
    Emission.mk c t m ∈ broadcastEmit st sender (jsTemplate m.toField) m ∧
    Emission.mk c t m ∈ send_message_defensive st sender (some m) ∧
    (sc.rooms.contains m.chatId = true →
      ((send_message_defensive st sender (some m)).filter
          (fun e => e.dest == c && e.payload == m)).length = 2) := by
  have hto : strTruthy m.toField = true := by
    rw [ht]
    simp [strTruthy, htne]
  have hdef : send_message_defensive st sender (some m)
      = relayEmissions st sender m := by
    simp [send_message_defensive, hchat, hto]
  have hb : Emission.mk c t m ∈ broadcastEmit st sender (jsTemplate m.toField) m := by
    unfold broadcastEmit
    rw [ht]
    have hscf : sc ∈ st.filter (fun s => s.sid != sender) :=
      List.mem_filter.mpr ⟨hmem, by simp [hsid, hne]⟩
    have hm := List.mem_map_of_mem
      (fun s => Emission.mk s.sid (jsTemplate (some t)) m) hscf
    simpa [hsid, jsTemplate] using hm
  refine ⟨hb, ?_, ?_⟩
  · rw [hdef]
    unfold relayEmissions
    exact List.mem_append.mpr (Or.inr hb)
  · intro hjoin
    have hjoin' : m.chatId ∈ sc.rooms := by simpa using hjoin
    have hroom : (roomEmit st sender m.chatId "receive_message" m).filter
        (fun e => e.dest == c && e.payload == m)
        = [Emission.mk c "receive_message" m] := by
      unfold roomEmit
      exact emit_filter_single st _ "receive_message" m _ sc c hnd hmem hsid
        (by simp [hsid, hjoin', hne])
        (by
          intro s h
          simp only [Bool.and_eq_true, beq_iff_eq, bne_iff_ne] at h
          rw [hsid]
          exact h.1.1)
    have hbc2 : (broadcastEmit st sender (jsTemplate m.toField) m).filter
        (fun e => e.dest == c && e.payload == m)
        = [Emission.mk c (jsTemplate m.toField) m] := by
      unfold broadcastEmit
      exact emit_filter_single st _ (jsTemplate m.toField) m _ sc c hnd hmem hsid
        (by simp [hsid, hne])
        (by
          intro s h
          simp only [Bool.and_eq_true, beq_iff_eq, bne_iff_ne] at h
          rw [hsid]
          exact h.1.1)
    rw [hdef]
    unfold relayEmissions
    rw [List.filter_append, hroom, hbc2]
    rfl

theorem dual_delivery_witness :
    (([Socket.mk 0 [some "r1"], Socket.mk 1 [], Socket.mk 2 []].map Socket.sid).Nodup ∧
        Socket.mk 2 [] ∈ [Socket.mk 0 [some "r1"], Socket.mk 1 [], Socket.mk 2 []] ∧
        (Socket.mk 2 []).sid = 2 ∧ (2 : SocketId) ≠ 1 ∧
        strTruthy (Msg.mk (some "r1") (some "userA") "x").chatId = true ∧
        (Msg.mk (some "r1") (some "userA") "x").toField = some "userA" ∧
        ("userA" : String) ≠ "") ∧
      (Emission.mk 2 "userA" (Msg.mk (some "r1") (some "userA") "x")
          ∈ broadcastEmit [Socket.mk 0 [some "r1"], Socket.mk 1 [], Socket.mk 2 []] 1
              (jsTemplate (Msg.mk (some "r1") (some "userA") "x").toField)
              (Msg.mk (some "r1") (some "userA") "x") ∧
        Emission.mk 2 "userA" (Msg.mk (some "r1") (some "userA") "x")
          ∈ send_message_defensive [Socket.mk 0 [some "r1"], Socket.mk 1 [], Socket.mk 2 []]
              1 (some (Msg.mk (some "r1") (some "userA") "x")) ∧
        ((Socket.mk 2 []).rooms.contains (Msg.mk (some "r1") (some "userA") "x").chatId = true →
          ((send_message_defensive [Socket.mk 0 [some "r1"], Socket.mk 1 [], Socket.mk 2 []]
              1 (some (Msg.mk (some "r1") (some "userA") "x"))).filter
            (fun e => e.dest == 2 && e.payload == Msg.mk (some "r1") (some "userA") "x")).length
            = 2)) :=
  ⟨⟨by decide, by decide, rfl, by decide, rfl, rfl, by decide⟩,
    dual_delivery [Socket.mk 0 [some "r1"], Socket.mk 1 [], Socket.mk 2 []] 1 2
      (Socket.mk 2 []) (Msg.mk (some "r1") (some "userA") "x") "userA"
      (by decide) (by decide) rfl (by decide) rfl rfl (by decide)⟩

/-- C3 counterexample: in the naive variant a malformed payload (here one
missing `to`) does NOT result in no-op broadcasts: the room member
(socket 0, joined to "r1") still receives a real `receive_message`
delivery, and an event literally named "undefined" is broadcast. -/
theorem naive_malformed_not_noop :
    send_message_naive [Socket.mk 0 [some "r1"], Socket.mk 1 []] 1
        (some (Msg.mk (some "r1") none "x"))
      = Except.ok [Emission.mk 0 "receive_message" (Msg.mk (some "r1") none "x"),
          Emission.mk 0 "undefined" (Msg.mk (some "r1") none "x")] ∧
      ¬ (send_message_naive [Socket.mk 0 [some "r1"], Socket.mk 1 []] 1
          (some (Msg.mk (some "r1") none "x")) = Except.ok []) := by
  exact ⟨by decide, by decide⟩

/-- C3 (amended): in the defensive variant a malformed payload (missing
`chatId` or missing `to`, or a null/undefined payload) produces no emission
on either path and no error to the sender.  In the naive variant the
handlers still run: a non-null malformed payload is still relayed — in
particular, with `to` missing, every other connection receives an event
named "undefined" and the `chatId` room members still get
`receive_message` — while a null/undefined payload raises a TypeError
inside the handler; in no case is anything emitted back to the sender. -/
theorem malformed_send_message (st : List Socket) (sender : SocketId)
    (data : Option Msg)
    (hmal : ¬ (strTruthy (data.bind Msg.chatId) = true ∧
        strTruthy (data.bind Msg.toField) = true)) :
    send_message_defensive st sender data = [] ∧
      (data = none →
        send_message_naive st sender data = Except.error JsError.typeError) ∧
      ∀ m, data = some m →
        send_message_naive st sender data
            = Except.ok (relayEmissions st sender m) ∧
          (∀ e ∈ relayEmissions st sender m, e.dest ≠ sender) ∧
          (m.toField = none → ∀ s ∈ st, s.sid ≠ sender →
            Emission.mk s.sid "undefined" m ∈ relayEmissions st sender m) := by
  cases data with
  | none =>
      exact ⟨rfl, fun _ => rfl, fun m hm => by cases hm⟩
  | some m =>
      have hg : (strTruthy m.chatId && strTruthy m.toField) = false := by
        cases hc : strTruthy m.chatId <;> cases hT : strTruthy m.toField <;>
          simp_all
      refine ⟨?_, ?_, ?_⟩
      · simp [send_message_defensive, hg]
      · intro h
        cases h
      · intro m' hm'
        cases hm'
        refine ⟨rfl, relayEmissions_not_to_sender st sender m, ?_⟩
        intro htN s hs hss
        unfold relayEmissions
        apply List.mem_append.mpr
        right
        unfold broadcastEmit
        rw [htN]
        have hsf : s ∈ st.filter (fun x => x.sid != sender) :=
          List.mem_filter.mpr ⟨hs, by simp [hss]⟩
        simpa [jsTemplate] using
          List.mem_map_of_mem (fun x => Emission.mk x.sid (jsTemplate none) m) hsf

theorem malformed_send_message_witness :
    (¬ (strTruthy ((some (Msg.mk (some "r1") none "x")).bind Msg.chatId) = true ∧
        strTruthy ((some (Msg.mk (some "r1") none "x")).bind Msg.toField) = true)) ∧
      (send_message_defensive [Socket.mk 0 [some "r1"], Socket.mk 1 []] 1
          (some (Msg.mk (some "r1") none "x")) = [] ∧
        (some (Msg.mk (some "r1") none "x") = none →
          send_message_naive [Socket.mk 0 [some "r1"], Socket.mk 1 []] 1
              (some (Msg.mk (some "r1") none "x"))
            = Except.error JsError.typeError) ∧
        ∀ m, some (Msg.mk (some "r1") none "x") = some m →
          send_message_naive [Socket.mk 0 [some "r1"], Socket.mk 1 []] 1
              (some (Msg.mk (some "r1") none "x"))
              = Except.ok (relayEmissions [Socket.mk 0 [some "r1"], Socket.mk 1 []] 1 m) ∧
            (∀ e ∈ relayEmissions [Socket.mk 0 [some "r1"], Socket.mk 1 []] 1 m,
              e.dest ≠ 1) ∧
            (m.toField = none →
              ∀ s ∈ [Socket.mk 0 [some "r1"], Socket.mk 1 []], s.sid ≠ 1 →
                Emission.mk s.sid "undefined" m
                  ∈ relayEmissions [Socket.mk 0 [some "r1"], Socket.mk 1 []] 1 m)) :=
  ⟨by decide,
    malformed_send_message [Socket.mk 0 [some "r1"], Socket.mk 1 []] 1
      (some (Msg.mk (some "r1") none "x")) (by decide)⟩
